import Mathlib

/-!
Shallow embedding of `child_support_2021.py`, the 2021 Korean child-support
calculator (guideline table lookup, child-count scaling, user adjustments,
income-proportional allocation), together with theorems checking the
natural-language specification against it.

Modelling conventions:
* Python `int` is `Int`; Python `float` is `ℚ` (every constant in the source
  table and every adjustment value is an exact decimal, so the float
  arithmetic of the source is modelled by exact rational arithmetic).
* Python `raise ValueError` sites become an `Except CalcError` result, with
  one `CalcError` constructor per distinct raise site.
* Python `//` (floor division) is `Int.fdiv`.
-/

/-- One error constructor per `raise` site of the source module. -/
inductive CalcError where
  | outOfRange          -- age_label_for: "Child age out of supported range"
  | incomeNotInBracket  -- income_bracket_index: "Combined income not in any bracket"
  | emptyChildren       -- calculate_child_support: "At least one child is required."
  | negativeIncome      -- calculate_child_support: "Income cannot be negative."
  | invalidAdjustment   -- calculate_child_support: "Unknown adjustment type"
  | lookupFailure       -- models a Python KeyError/IndexError on dict/list access
  deriving Repr, DecidableEq

/-- Income brackets `INCOME_BRACKETS_MW`: combined-income brackets in 만원 (10,000 KRW) units;
the last bracket has an open upper bound (`none`). -/
def INCOME_BRACKETS_MW : List (Int × Option Int) :=
  [(0, some 199), (200, some 299), (300, some 399), (400, some 499),
   (500, some 599), (600, some 699), (700, some 799), (800, some 899),
   (900, some 999), (1000, some 1199), (1200, none)]

/-- Age brackets `AGE_BRACKETS`: (min age, max age, label). -/
def AGE_BRACKETS : List (Int × Int × String) :=
  [(0, 2, "0~2세"), (3, 5, "3~5세"), (6, 8, "6~8세"),
   (9, 11, "9~11세"), (12, 14, "12~14세"), (15, 18, "15~18세")]

/-- One cell of the guideline table: `{"avg": _, "low": _, "high": _}`. -/
structure TableEntry where
  avg : Int
  low : Int
  high : Option Int
  deriving Repr, DecidableEq

/-- Guideline table `TABLE_2021`: age label → list of cells indexed by income-bracket index. -/
def TABLE_2021 : List (String × List TableEntry) :=
  [("0~2세",
    [⟨621000, 264000, some 686000⟩, ⟨752000, 687000, some 848000⟩,
     ⟨945000, 849000, some 1021000⟩, ⟨1098000, 1022000, some 1171000⟩,
     ⟨1245000, 1172000, some 1323000⟩, ⟨1401000, 1324000, some 1491000⟩,
     ⟨1582000, 1492000, some 1685000⟩, ⟨1789000, 1686000, some 1893000⟩,
     ⟨1997000, 1894000, some 2046000⟩, ⟨2095000, 2047000, some 2151000⟩,
     ⟨2207000, 2152000, none⟩]),
   ("3~5세",
    [⟨631000, 268000, some 695000⟩, ⟨759000, 696000, some 854000⟩,
     ⟨949000, 855000, some 1031000⟩, ⟨1113000, 1032000, some 1189000⟩,
     ⟨1266000, 1190000, some 1344000⟩, ⟨1422000, 1345000, some 1510000⟩,
     ⟨1598000, 1511000, some 1702000⟩, ⟨1807000, 1703000, some 1912000⟩,
     ⟨2017000, 1913000, some 2066000⟩, ⟨2116000, 2067000, some 2180000⟩,
     ⟨2245000, 2181000, none⟩]),
   ("6~8세",
    [⟨648000, 272000, some 707000⟩, ⟨767000, 708000, some 863000⟩,
     ⟨959000, 864000, some 1049000⟩, ⟨1140000, 1050000, some 1216000⟩,
     ⟨1292000, 1217000, some 1385000⟩, ⟨1479000, 1386000, some 1546000⟩,
     ⟨1614000, 1547000, some 1732000⟩, ⟨1850000, 1733000, some 1957000⟩,
     ⟨2065000, 1958000, some 2101000⟩, ⟨2137000, 2102000, some 2224000⟩,
     ⟨2312000, 2225000, none⟩]),
   ("9~11세",
    [⟨667000, 281000, some 724000⟩, ⟨782000, 725000, some 885000⟩,
     ⟨988000, 886000, some 1075000⟩, ⟨1163000, 1076000, some 1240000⟩,
     ⟨1318000, 1241000, some 1406000⟩, ⟨1494000, 1407000, some 1562000⟩,
     ⟨1630000, 1563000, some 1758000⟩, ⟨1887000, 1759000, some 2012000⟩,
     ⟨2137000, 2013000, some 2158000⟩, ⟨2180000, 2159000, some 2292000⟩,
     ⟨2405000, 2293000, none⟩]),
   ("12~14세",
    [⟨679000, 295000, some 734000⟩, ⟨790000, 735000, some 894000⟩,
     ⟨998000, 895000, some 1139000⟩, ⟨1280000, 1140000, some 1351000⟩,
     ⟨1423000, 1352000, some 1510000⟩, ⟨1598000, 1511000, some 1654000⟩,
     ⟨1711000, 1655000, some 1847000⟩, ⟨1984000, 1848000, some 2071000⟩,
     ⟨2159000, 2072000, some 2191000⟩, ⟨2223000, 2192000, some 2349000⟩,
     ⟨2476000, 2350000, none⟩]),
   ("15~18세",
    [⟨703000, 319000, some 830000⟩, ⟨957000, 831000, some 1092000⟩,
     ⟨1227000, 1093000, some 1314000⟩, ⟨1402000, 1315000, some 1503000⟩,
     ⟨1604000, 1504000, some 1699000⟩, ⟨1794000, 1700000, some 1879000⟩,
     ⟨1964000, 1880000, some 2063000⟩, ⟨2163000, 2064000, some 2204000⟩,
     ⟨2246000, 2205000, some 2393000⟩, ⟨2540000, 2394000, some 2711000⟩,
     ⟨2883000, 2712000, none⟩])]

/-- Entries of the `CHILD_COUNT_MULTIPLIERS` dict (keys 1, 2, 3). -/
def CHILD_COUNT_MULTIPLIER_1 : ℚ := 1.065
def CHILD_COUNT_MULTIPLIER_2 : ℚ := 1.0
def CHILD_COUNT_MULTIPLIER_3 : ℚ := 0.783

/-- Lines 294-300 of the source: `if n == 1 ... elif n == 2 ... else ...`
selecting from `CHILD_COUNT_MULTIPLIERS`. -/
def childCountMultiplier (n : Nat) : ℚ :=
  if n = 1 then CHILD_COUNT_MULTIPLIER_1
  else if n = 2 then CHILD_COUNT_MULTIPLIER_2
  else CHILD_COUNT_MULTIPLIER_3

/-- The `Adjustment` dataclass (`notes` is never read by the core). -/
structure Adjustment where
  name : String
  type : String
  value : ℚ
  is_percent : Bool := false
  deriving Repr, DecidableEq

/-- The `Child` dataclass. -/
structure Child where
  age : Int
  deriving Repr, DecidableEq

/-- The `CalculationInputs` dataclass; `adjustments` defaults to `None`. -/
structure CalculationInputs where
  custodial_parent_income_krw : Int
  non_custodial_parent_income_krw : Int
  children : List Child
  custodial_imputed_income_krw : Option Int := none
  non_custodial_imputed_income_krw : Option Int := none
  adjustments : Option (List Adjustment) := none
  deriving Repr

/-- The `ChildCell` dataclass. -/
structure ChildCell where
  age_label : String
  income_bracket_mw : Int × Option Int
  avg_krw : Int
  low_krw : Int
  high_krw : Option Int
  deriving Repr, DecidableEq

/-- The per-adjustment audit record appended to `applied`:
the adjustment's own fields plus its computed effect. -/
inductive AdjEffect where
  | effective_multiplier (q : ℚ)
  | effective_add_krw (q : ℚ)
  | effective_subtract_krw (q : ℚ)
  deriving Repr, DecidableEq

structure AppliedAdjustment where
  adjustment : Adjustment
  effect : AdjEffect
  deriving Repr, DecidableEq

/-- The `CalculationBreakdown` dataclass. -/
structure CalculationBreakdown where
  combined_income_krw : Int
  combined_income_mw : Int
  income_bracket_index : Nat
  standard_children_cells : List ChildCell
  standard_total_krw : Int
  child_count_multiplier : ℚ
  adjusted_total_krw : Int
  non_custodial_share : ℚ
  non_custodial_payment_krw : Int
  applied_adjustments : List AppliedAdjustment
  deriving Repr

/-- Whether income-bracket `b` matches the scaled income `mw`
(the per-iteration test of `income_bracket_index`). -/
def bracketHit (mw : Int) (b : Int × Option Int) : Bool :=
  match b.2 with
  | none => decide (b.1 ≤ mw)
  | some hi => decide (b.1 ≤ mw) && decide (mw ≤ hi)

/-- First-match search of the loop in `income_bracket_index`. -/
def findBracket (mw : Int) : List (Int × Option Int) → Option Nat
  | [] => none
  | b :: rest =>
      if bracketHit mw b then some 0
      else (findBracket mw rest).map (· + 1)

namespace Guideline2021

/-- Age resolver `Guideline2021.age_label_for`: linear scan of `AGE_BRACKETS`. -/
def age_label_for (age : Int) : Except CalcError String :=
  go AGE_BRACKETS
where
  go : List (Int × Int × String) → Except CalcError String
    | [] => .error .outOfRange
    | (a_min, a_max, label) :: rest =>
        if a_min ≤ age ∧ age ≤ a_max then .ok label else go rest

/-- Income resolver `Guideline2021.income_bracket_index`: scale by `// 10_000` and scan
`INCOME_BRACKETS_MW`; the fall-through raise becomes `incomeNotInBracket`. -/
def income_bracket_index (combined_income_krw : Int) : Except CalcError Nat :=
  match findBracket (Int.fdiv combined_income_krw 10000) INCOME_BRACKETS_MW with
  | some idx => .ok idx
  | none => .error .incomeNotInBracket

/-- Cell lookup `Guideline2021.cell`: resolve label and bracket index, then index the
table; a failed dict/list access is the (unreachable in Python) `lookupFailure`. -/
def cell (age : Int) (combined_income_krw : Int) : Except CalcError ChildCell :=
  match age_label_for age with
  | .error e => .error e
  | .ok label =>
    match income_bracket_index combined_income_krw with
    | .error e => .error e
    | .ok idx =>
      match (TABLE_2021.lookup label) with
      | none => .error .lookupFailure
      | some row =>
        match row[idx]? with
        | none => .error .lookupFailure
        | some entry =>
          match INCOME_BRACKETS_MW[idx]? with
          | none => .error .lookupFailure
          | some b =>
            .ok ⟨label, b, entry.avg, entry.low, entry.high⟩

end Guideline2021

/-- Rounding helper `_safe_int(x) = int(math.floor(x + 0.5))`. -/
def _safe_int (x : ℚ) : Int := Int.floor (x + 1/2)

/-- The per-iteration body of the adjustment loop (lines 306-321), threading
the running total and the `applied` audit list, raising on an unknown type. -/
def applyAdjustments (t : ℚ) :
    List Adjustment → Except CalcError (ℚ × List AppliedAdjustment)
  | [] => .ok (t, [])
  | a :: rest =>
    if a.type = "multiplier" then
      let f : ℚ := if a.is_percent then 1 + a.value else a.value
      match applyAdjustments (t * f) rest with
      | .error e => .error e
      | .ok p => .ok (p.1, ⟨a, .effective_multiplier f⟩ :: p.2)
    else if a.type = "add" then
      match applyAdjustments (t + a.value) rest with
      | .error e => .error e
      | .ok p => .ok (p.1, ⟨a, .effective_add_krw a.value⟩ :: p.2)
    else if a.type = "subtract" then
      match applyAdjustments (t - a.value) rest with
      | .error e => .error e
      | .ok p => .ok (p.1, ⟨a, .effective_subtract_krw a.value⟩ :: p.2)
    else .error .invalidAdjustment

/-- The per-child loop of lines 286-291 collecting one `ChildCell` per child
(the running `standard_total` is recovered below as the sum of `avg_krw`). -/
def resolveCells (combined : Int) : List Child → Except CalcError (List ChildCell)
  | [] => .ok []
  | ch :: rest =>
    match Guideline2021.cell ch.age combined with
    | .error e => .error e
    | .ok c =>
      match resolveCells combined rest with
      | .error e => .error e
      | .ok cs => .ok (c :: cs)

/-- Income imputation (lines 271-276): substitute the imputed value when the
stated income is ≤ 0 and an imputed value is present. -/
def imputeIncome (stated : Int) (imputed : Option Int) : Int :=
  match imputed with
  | some v => if stated ≤ 0 then v else stated
  | none => stated

/-- Allocation calculator `calculate_child_support`: the full pipeline of lines 264-346. -/
def calculate_child_support (inputs : CalculationInputs) :
    Except CalcError CalculationBreakdown :=
  if inputs.children = [] then .error .emptyChildren
  else
    let adj := inputs.adjustments.getD []
    let cust_income :=
      imputeIncome inputs.custodial_parent_income_krw inputs.custodial_imputed_income_krw
    let noncust_income :=
      imputeIncome inputs.non_custodial_parent_income_krw inputs.non_custodial_imputed_income_krw
    if cust_income < 0 ∨ noncust_income < 0 then .error .negativeIncome
    else
      let combined := cust_income + noncust_income
      let combined_mw := Int.fdiv combined 10000
      match Guideline2021.income_bracket_index combined with
      | .error e => .error e
      | .ok bracket_idx =>
        match resolveCells combined inputs.children with
        | .error e => .error e
        | .ok cells =>
          let standard_total : Int := (cells.map (·.avg_krw)).sum
          let m := childCountMultiplier inputs.children.length
          match applyAdjustments ((standard_total : ℚ) * m) adj with
          | .error e => .error e
          | .ok (adjusted_raw, applied) =>
            let adjusted_total : ℚ := max 0 adjusted_raw
            let noncust_share : ℚ :=
              if combined = 0 then 0 else (noncust_income : ℚ) / (combined : ℚ)
            let payment := _safe_int (adjusted_total * noncust_share)
            .ok { combined_income_krw := combined
                  combined_income_mw := combined_mw
                  income_bracket_index := bracket_idx
                  standard_children_cells := cells
                  standard_total_krw := standard_total
                  child_count_multiplier := m
                  adjusted_total_krw := _safe_int adjusted_total
                  non_custodial_share := noncust_share
                  non_custodial_payment_krw := payment
                  applied_adjustments := applied }

/-- Membership of the scaled income `mw` in the income bracket at index `i`. -/
def bracketContains (mw : Int) (i : Nat) : Prop :=
  ∃ b, INCOME_BRACKETS_MW[i]? = some b ∧ bracketHit mw b = true

/-- Membership of age `a` in the age bracket at index `i`. -/
def ageBracketContains (a : Int) (i : Nat) : Prop :=
  ∃ b, AGE_BRACKETS[i]? = some b ∧ b.1 ≤ a ∧ a ≤ b.2.1

/-- The four recognized adjustment kinds (the `type` strings the loop tests,
with `multiplier` split by `is_percent` into the factor/percentage kinds). -/
def recognizedAdj (a : Adjustment) : Prop :=
  a.type = "multiplier" ∨ a.type = "add" ∨ a.type = "subtract"

instance (a : Adjustment) : Decidable (recognizedAdj a) := by
  unfold recognizedAdj
  infer_instance

/-- Scenario A of the spec: incomes 2,000,000 / 3,000,000, one child of age 8. -/
def scenarioA : CalculationInputs :=
  { custodial_parent_income_krw := 2000000
    non_custodial_parent_income_krw := 3000000
    children := [⟨8⟩] }

/-- The cell scenario A resolves to: "6~8세" row, bracket index 4. -/
def cellA : ChildCell := ⟨"6~8세", (500, some 599), 1292000, 1217000, some 1385000⟩

/-- Full breakdown produced for scenario A. -/
def resultA : CalculationBreakdown :=
  { combined_income_krw := 5000000
    combined_income_mw := 500
    income_bracket_index := 4
    standard_children_cells := [cellA]
    standard_total_krw := 1292000
    child_count_multiplier := 1.065
    adjusted_total_krw := 1375980
    non_custodial_share := 0.6
    non_custodial_payment_krw := 825588
    applied_adjustments := [] }

/-- Scenario A plus a subtractive adjustment far larger than the total. -/
def scenarioSub : CalculationInputs :=
  { custodial_parent_income_krw := 2000000
    non_custodial_parent_income_krw := 3000000
    children := [⟨8⟩]
    adjustments := some [⟨"debt", "subtract", 99999999, false⟩] }

/-- Breakdown for `scenarioSub`: the clamped total and the payment are 0. -/
def resultSub : CalculationBreakdown :=
  { combined_income_krw := 5000000
    combined_income_mw := 500
    income_bracket_index := 4
    standard_children_cells := [cellA]
    standard_total_krw := 1292000
    child_count_multiplier := 1.065
    adjusted_total_krw := 0
    non_custodial_share := 0.6
    non_custodial_payment_krw := 0
    applied_adjustments := [⟨⟨"debt", "subtract", 99999999, false⟩,
      .effective_subtract_krw 99999999⟩] }

/-- Scenario A plus an additive adjustment of one half currency-subunit,
separating the exact total from its rounded report. -/
def scenarioHalf : CalculationInputs :=
  { custodial_parent_income_krw := 2000000
    non_custodial_parent_income_krw := 3000000
    children := [⟨8⟩]
    adjustments := some [⟨"half", "add", 0.5, false⟩] }

/-- Breakdown for `scenarioHalf`: exact total 1,375,980.5; the reported total
rounds to 1,375,981 while the payment rounds 825,588.3 to 825,588. -/
def resultHalf : CalculationBreakdown :=
  { combined_income_krw := 5000000
    combined_income_mw := 500
    income_bracket_index := 4
    standard_children_cells := [cellA]
    standard_total_krw := 1292000
    child_count_multiplier := 1.065
    adjusted_total_krw := 1375981
    non_custodial_share := 0.6
    non_custodial_payment_krw := 825588
    applied_adjustments := [⟨⟨"half", "add", 0.5, false⟩, .effective_add_krw 0.5⟩] }

/-- Request carrying an adjustment of unrecognized kind "divide". -/
def badAdjInputs : CalculationInputs :=
  { custodial_parent_income_krw := 1000000
    non_custodial_parent_income_krw := 2000000
    children := [⟨3⟩]
    adjustments := some [⟨"weird", "divide", 2, false⟩] }

/-- Request with zero stated incomes, no imputation and a positive additive
adjustment. -/
def zeroIncomeInputs : CalculationInputs :=
  { custodial_parent_income_krw := 0
    non_custodial_parent_income_krw := 0
    children := [⟨4⟩]
    adjustments := some [⟨"extra", "add", 50000, false⟩] }

/-- Evaluation rule for `_safe_int` at a known integer answer. -/
lemma safe_int_eq_of (q : ℚ) (n : ℤ) (h1 : (n : ℚ) ≤ q + 1/2) (h2 : q + 1/2 < n + 1) :
    _safe_int q = n := by
  unfold _safe_int
  exact Int.floor_eq_iff.mpr ⟨h1, h2⟩

lemma findBracket_cons_of_hit (mw : Int) (b : Int × Option Int) (l : List (Int × Option Int))
    (h : bracketHit mw b = true) : findBracket mw (b :: l) = some 0 := by
  simp [findBracket, h]

lemma findBracket_cons_of_miss (mw : Int) (b : Int × Option Int) (l : List (Int × Option Int))
    (h : bracketHit mw b = false) :
    findBracket mw (b :: l) = (findBracket mw l).map (· + 1) := by
  simp [findBracket, h]

lemma bracketContains_lt (mw : Int) (i : Nat) (h : bracketContains mw i) : i < 11 := by
  obtain ⟨b, hb, -⟩ := h
  by_contra hc
  push_neg at hc
  rw [List.getElem?_eq_none (by simpa [INCOME_BRACKETS_MW] using hc)] at hb
  cases hb

/-- The income-bracket scan succeeds on every non-negative scaled income and
lands in the unique bracket containing it. -/
lemma findBracket_spec (mw : Int) (h0 : 0 ≤ mw) :
    ∃ i, findBracket mw INCOME_BRACKETS_MW = some i ∧ bracketContains mw i ∧
      ∀ j, bracketContains mw j → j = i := by
  have hcase : mw ≤ 199 ∨ (200 ≤ mw ∧ mw ≤ 299) ∨ (300 ≤ mw ∧ mw ≤ 399) ∨ (400 ≤ mw ∧ mw ≤ 499) ∨ (500 ≤ mw ∧ mw ≤ 599) ∨ (600 ≤ mw ∧ mw ≤ 699) ∨ (700 ≤ mw ∧ mw ≤ 799) ∨ (800 ≤ mw ∧ mw ≤ 899) ∨ (900 ≤ mw ∧ mw ≤ 999) ∨ (1000 ≤ mw ∧ mw ≤ 1199) ∨ 1200 ≤ mw := by omega
  rcases hcase with h|h|h|h|h|h|h|h|h|h|h
  · refine ⟨0, ?_, ⟨(0, some 199), rfl, by simp [bracketHit] ; try omega⟩, ?_⟩
    · simp only [INCOME_BRACKETS_MW]
      rw [findBracket_cons_of_hit _ _ _ (by simp [bracketHit] ; try omega)]
      try rfl
    · intro j hj
      have hjlt : j < 11 := bracketContains_lt mw j hj
      interval_cases j <;> simp [bracketContains, INCOME_BRACKETS_MW, bracketHit] at hj <;> omega
  · refine ⟨1, ?_, ⟨(200, some 299), rfl, by simp [bracketHit] ; try omega⟩, ?_⟩
    · simp only [INCOME_BRACKETS_MW]
      rw [findBracket_cons_of_miss _ _ _ (by simp [bracketHit] ; try omega),
        findBracket_cons_of_hit _ _ _ (by simp [bracketHit] ; try omega)]
      try rfl
    · intro j hj
      have hjlt : j < 11 := bracketContains_lt mw j hj
      interval_cases j <;> simp [bracketContains, INCOME_BRACKETS_MW, bracketHit] at hj <;> omega
  · refine ⟨2, ?_, ⟨(300, some 399), rfl, by simp [bracketHit] ; try omega⟩, ?_⟩
    · simp only [INCOME_BRACKETS_MW]
      rw [findBracket_cons_of_miss _ _ _ (by simp [bracketHit] ; try omega),
        findBracket_cons_of_miss _ _ _ (by simp [bracketHit] ; try omega),
        findBracket_cons_of_hit _ _ _ (by simp [bracketHit] ; try omega)]
      try rfl
    · intro j hj
      have hjlt : j < 11 := bracketContains_lt mw j hj
      interval_cases j <;> simp [bracketContains, INCOME_BRACKETS_MW, bracketHit] at hj <;> omega
  · refine ⟨3, ?_, ⟨(400, some 499), rfl, by simp [bracketHit] ; try omega⟩, ?_⟩
    · simp only [INCOME_BRACKETS_MW]
      rw [findBracket_cons_of_miss _ _ _ (by simp [bracketHit] ; try omega),
        findBracket_cons_of_miss _ _ _ (by simp [bracketHit] ; try omega),
        findBracket_cons_of_miss _ _ _ (by simp [bracketHit] ; try omega),
        findBracket_cons_of_hit _ _ _ (by simp [bracketHit] ; try omega)]
      try rfl
    · intro j hj
      have hjlt : j < 11 := bracketContains_lt mw j hj
      interval_cases j <;> simp [bracketContains, INCOME_BRACKETS_MW, bracketHit] at hj <;> omega
  · refine ⟨4, ?_, ⟨(500, some 599), rfl, by simp [bracketHit] ; try omega⟩, ?_⟩
    · simp only [INCOME_BRACKETS_MW]
      rw [findBracket_cons_of_miss _ _ _ (by simp [bracketHit] ; try omega),
        findBracket_cons_of_miss _ _ _ (by simp [bracketHit] ; try omega),
        findBracket_cons_of_miss _ _ _ (by simp [bracketHit] ; try omega),
        findBracket_cons_of_miss _ _ _ (by simp [bracketHit] ; try omega),
        findBracket_cons_of_hit _ _ _ (by simp [bracketHit] ; try omega)]
      try rfl
    · intro j hj
      have hjlt : j < 11 := bracketContains_lt mw j hj
      interval_cases j <;> simp [bracketContains, INCOME_BRACKETS_MW, bracketHit] at hj <;> omega
  · refine ⟨5, ?_, ⟨(600, some 699), rfl, by simp [bracketHit] ; try omega⟩, ?_⟩
    · simp only [INCOME_BRACKETS_MW]
      rw [findBracket_cons_of_miss _ _ _ (by simp [bracketHit] ; try omega),
        findBracket_cons_of_miss _ _ _ (by simp [bracketHit] ; try omega),
        findBracket_cons_of_miss _ _ _ (by simp [bracketHit] ; try omega),
        findBracket_cons_of_miss _ _ _ (by simp [bracketHit] ; try omega),
        findBracket_cons_of_miss _ _ _ (by simp [bracketHit] ; try omega),
        findBracket_cons_of_hit _ _ _ (by simp [bracketHit] ; try omega)]
      try rfl
    · intro j hj
      have hjlt : j < 11 := bracketContains_lt mw j hj
      interval_cases j <;> simp [bracketContains, INCOME_BRACKETS_MW, bracketHit] at hj <;> omega
  · refine ⟨6, ?_, ⟨(700, some 799), rfl, by simp [bracketHit] ; try omega⟩, ?_⟩
    · simp only [INCOME_BRACKETS_MW]
      rw [findBracket_cons_of_miss _ _ _ (by simp [bracketHit] ; try omega),
        findBracket_cons_of_miss _ _ _ (by simp [bracketHit] ; try omega),
        findBracket_cons_of_miss _ _ _ (by simp [bracketHit] ; try omega),
        findBracket_cons_of_miss _ _ _ (by simp [bracketHit] ; try omega),
        findBracket_cons_of_miss _ _ _ (by simp [bracketHit] ; try omega),
        findBracket_cons_of_miss _ _ _ (by simp [bracketHit] ; try omega),
        findBracket_cons_of_hit _ _ _ (by simp [bracketHit] ; try omega)]
      try rfl
    · intro j hj
      have hjlt : j < 11 := bracketContains_lt mw j hj
      interval_cases j <;> simp [bracketContains, INCOME_BRACKETS_MW, bracketHit] at hj <;> omega
  · refine ⟨7, ?_, ⟨(800, some 899), rfl, by simp [bracketHit] ; try omega⟩, ?_⟩
    · simp only [INCOME_BRACKETS_MW]
      rw [findBracket_cons_of_miss _ _ _ (by simp [bracketHit] ; try omega),
        findBracket_cons_of_miss _ _ _ (by simp [bracketHit] ; try omega),
        findBracket_cons_of_miss _ _ _ (by simp [bracketHit] ; try omega),
        findBracket_cons_of_miss _ _ _ (by simp [bracketHit] ; try omega),
        findBracket_cons_of_miss _ _ _ (by simp [bracketHit] ; try omega),
        findBracket_cons_of_miss _ _ _ (by simp [bracketHit] ; try omega),
        findBracket_cons_of_miss _ _ _ (by simp [bracketHit] ; try omega),
        findBracket_cons_of_hit _ _ _ (by simp [bracketHit] ; try omega)]
      try rfl
    · intro j hj
      have hjlt : j < 11 := bracketContains_lt mw j hj
      interval_cases j <;> simp [bracketContains, INCOME_BRACKETS_MW, bracketHit] at hj <;> omega
  · refine ⟨8, ?_, ⟨(900, some 999), rfl, by simp [bracketHit] ; try omega⟩, ?_⟩
    · simp only [INCOME_BRACKETS_MW]
      rw [findBracket_cons_of_miss _ _ _ (by simp [bracketHit] ; try omega),
        findBracket_cons_of_miss _ _ _ (by simp [bracketHit] ; try omega),
        findBracket_cons_of_miss _ _ _ (by simp [bracketHit] ; try omega),
        findBracket_cons_of_miss _ _ _ (by simp [bracketHit] ; try omega),
        findBracket_cons_of_miss _ _ _ (by simp [bracketHit] ; try omega),
        findBracket_cons_of_miss _ _ _ (by simp [bracketHit] ; try omega),
        findBracket_cons_of_miss _ _ _ (by simp [bracketHit] ; try omega),
        findBracket_cons_of_miss _ _ _ (by simp [bracketHit] ; try omega),
        findBracket_cons_of_hit _ _ _ (by simp [bracketHit] ; try omega)]
      try rfl
    · intro j hj
      have hjlt : j < 11 := bracketContains_lt mw j hj
      interval_cases j <;> simp [bracketContains, INCOME_BRACKETS_MW, bracketHit] at hj <;> omega
  · refine ⟨9, ?_, ⟨(1000, some 1199), rfl, by simp [bracketHit] ; try omega⟩, ?_⟩
    · simp only [INCOME_BRACKETS_MW]
      rw [findBracket_cons_of_miss _ _ _ (by simp [bracketHit] ; try omega),
        findBracket_cons_of_miss _ _ _ (by simp [bracketHit] ; try omega),
        findBracket_cons_of_miss _ _ _ (by simp [bracketHit] ; try omega),
        findBracket_cons_of_miss _ _ _ (by simp [bracketHit] ; try omega),
        findBracket_cons_of_miss _ _ _ (by simp [bracketHit] ; try omega),
        findBracket_cons_of_miss _ _ _ (by simp [bracketHit] ; try omega),
        findBracket_cons_of_miss _ _ _ (by simp [bracketHit] ; try omega),
        findBracket_cons_of_miss _ _ _ (by simp [bracketHit] ; try omega),
        findBracket_cons_of_miss _ _ _ (by simp [bracketHit] ; try omega),
        findBracket_cons_of_hit _ _ _ (by simp [bracketHit] ; try omega)]
      try rfl
    · intro j hj
      have hjlt : j < 11 := bracketContains_lt mw j hj
      interval_cases j <;> simp [bracketContains, INCOME_BRACKETS_MW, bracketHit] at hj <;> omega
  · refine ⟨10, ?_, ⟨(1200, none), rfl, by simp [bracketHit] ; try omega⟩, ?_⟩
    · simp only [INCOME_BRACKETS_MW]
      rw [findBracket_cons_of_miss _ _ _ (by simp [bracketHit] ; try omega),
        findBracket_cons_of_miss _ _ _ (by simp [bracketHit] ; try omega),
        findBracket_cons_of_miss _ _ _ (by simp [bracketHit] ; try omega),
        findBracket_cons_of_miss _ _ _ (by simp [bracketHit] ; try omega),
        findBracket_cons_of_miss _ _ _ (by simp [bracketHit] ; try omega),
        findBracket_cons_of_miss _ _ _ (by simp [bracketHit] ; try omega),
        findBracket_cons_of_miss _ _ _ (by simp [bracketHit] ; try omega),
        findBracket_cons_of_miss _ _ _ (by simp [bracketHit] ; try omega),
        findBracket_cons_of_miss _ _ _ (by simp [bracketHit] ; try omega),
        findBracket_cons_of_miss _ _ _ (by simp [bracketHit] ; try omega),
        findBracket_cons_of_hit _ _ _ (by simp [bracketHit] ; try omega)]
      try rfl
    · intro j hj
      have hjlt : j < 11 := bracketContains_lt mw j hj
      interval_cases j <;> simp [bracketContains, INCOME_BRACKETS_MW, bracketHit] at hj <;> omega

/-- C2: for every non-negative combined income, `income_bracket_index` returns
exactly one bracket index — the scaled income lies in that bracket, no other
bracket contains it, and the error branch is not taken. -/
theorem claim_C2 (c : Int) (hc : 0 ≤ c) :
    ∃ i, Guideline2021.income_bracket_index c = .ok i ∧
      bracketContains (Int.fdiv c 10000) i ∧
      ∀ j, bracketContains (Int.fdiv c 10000) j → j = i := by
  obtain ⟨i, hfb, hmem, huniq⟩ :=
    findBracket_spec (Int.fdiv c 10000) (Int.fdiv_nonneg hc (by norm_num))
  exact ⟨i, by simp [Guideline2021.income_bracket_index, hfb], hmem, huniq⟩

/-- Witness for C2 at combined income 5,000,000. -/
theorem claim_C2_witness :
    ∃ i, Guideline2021.income_bracket_index 5000000 = .ok i ∧
      bracketContains (Int.fdiv 5000000 10000) i ∧
      ∀ j, bracketContains (Int.fdiv 5000000 10000) j → j = i :=
  claim_C2 5000000 (by norm_num)


lemma alf_go_hit (age : Int) (b : Int × Int × String) (l : List (Int × Int × String))
    (h : b.1 ≤ age ∧ age ≤ b.2.1) :
    Guideline2021.age_label_for.go age (b :: l) = .ok b.2.2 := by
  obtain ⟨lo, hi, lbl⟩ := b
  simp_all [Guideline2021.age_label_for.go]

lemma alf_go_miss (age : Int) (b : Int × Int × String) (l : List (Int × Int × String))
    (h : ¬(b.1 ≤ age ∧ age ≤ b.2.1)) :
    Guideline2021.age_label_for.go age (b :: l) = Guideline2021.age_label_for.go age l := by
  obtain ⟨lo, hi, lbl⟩ := b
  simp_all [Guideline2021.age_label_for.go]

lemma ageBracketContains_lt (a : Int) (i : Nat) (h : ageBracketContains a i) : i < 6 := by
  obtain ⟨b, hb, -⟩ := h
  by_contra hc
  push_neg at hc
  rw [List.getElem?_eq_none (by simpa [AGE_BRACKETS] using hc)] at hb
  cases hb

/-- Every age from 0 to 18 resolves to the label of the unique age bracket
containing it. -/
lemma age_spec (a : Int) (h0 : 0 ≤ a) (h18 : a ≤ 18) :
    ∃ i b, AGE_BRACKETS[i]? = some b ∧ Guideline2021.age_label_for a = .ok b.2.2 ∧
      ageBracketContains a i ∧ ∀ j, ageBracketContains a j → j = i := by
  have hcase : (0 ≤ a ∧ a ≤ 2) ∨ (3 ≤ a ∧ a ≤ 5) ∨ (6 ≤ a ∧ a ≤ 8) ∨ (9 ≤ a ∧ a ≤ 11) ∨ (12 ≤ a ∧ a ≤ 14) ∨ (15 ≤ a ∧ a ≤ 18) := by omega
  rcases hcase with h|h|h|h|h|h
  · refine ⟨0, (0, 2, "0~2세"), rfl, ?_, ⟨(0, 2, "0~2세"), rfl, by simp ; omega, by simp ; omega⟩, ?_⟩
    · simp only [Guideline2021.age_label_for, AGE_BRACKETS]
      rw [alf_go_hit _ _ _ (by simp ; omega)]
    · intro j hj
      have hjlt : j < 6 := ageBracketContains_lt a j hj
      interval_cases j <;> simp [ageBracketContains, AGE_BRACKETS] at hj <;> omega
  · refine ⟨1, (3, 5, "3~5세"), rfl, ?_, ⟨(3, 5, "3~5세"), rfl, by simp ; omega, by simp ; omega⟩, ?_⟩
    · simp only [Guideline2021.age_label_for, AGE_BRACKETS]
      rw [alf_go_miss _ _ _ (by simp ; omega), alf_go_hit _ _ _ (by simp ; omega)]
    · intro j hj
      have hjlt : j < 6 := ageBracketContains_lt a j hj
      interval_cases j <;> simp [ageBracketContains, AGE_BRACKETS] at hj <;> omega
  · refine ⟨2, (6, 8, "6~8세"), rfl, ?_, ⟨(6, 8, "6~8세"), rfl, by simp ; omega, by simp ; omega⟩, ?_⟩
    · simp only [Guideline2021.age_label_for, AGE_BRACKETS]
      rw [alf_go_miss _ _ _ (by simp ; omega), alf_go_miss _ _ _ (by simp ; omega), alf_go_hit _ _ _ (by simp ; omega)]
    · intro j hj
      have hjlt : j < 6 := ageBracketContains_lt a j hj
      interval_cases j <;> simp [ageBracketContains, AGE_BRACKETS] at hj <;> omega
  · refine ⟨3, (9, 11, "9~11세"), rfl, ?_, ⟨(9, 11, "9~11세"), rfl, by simp ; omega, by simp ; omega⟩, ?_⟩
    · simp only [Guideline2021.age_label_for, AGE_BRACKETS]
      rw [alf_go_miss _ _ _ (by simp ; omega), alf_go_miss _ _ _ (by simp ; omega), alf_go_miss _ _ _ (by simp ; omega), alf_go_hit _ _ _ (by simp ; omega)]
    · intro j hj
      have hjlt : j < 6 := ageBracketContains_lt a j hj
      interval_cases j <;> simp [ageBracketContains, AGE_BRACKETS] at hj <;> omega
  · refine ⟨4, (12, 14, "12~14세"), rfl, ?_, ⟨(12, 14, "12~14세"), rfl, by simp ; omega, by simp ; omega⟩, ?_⟩
    · simp only [Guideline2021.age_label_for, AGE_BRACKETS]
      rw [alf_go_miss _ _ _ (by simp ; omega), alf_go_miss _ _ _ (by simp ; omega), alf_go_miss _ _ _ (by simp ; omega), alf_go_miss _ _ _ (by simp ; omega), alf_go_hit _ _ _ (by simp ; omega)]
    · intro j hj
      have hjlt : j < 6 := ageBracketContains_lt a j hj
      interval_cases j <;> simp [ageBracketContains, AGE_BRACKETS] at hj <;> omega
  · refine ⟨5, (15, 18, "15~18세"), rfl, ?_, ⟨(15, 18, "15~18세"), rfl, by simp ; omega, by simp ; omega⟩, ?_⟩
    · simp only [Guideline2021.age_label_for, AGE_BRACKETS]
      rw [alf_go_miss _ _ _ (by simp ; omega), alf_go_miss _ _ _ (by simp ; omega), alf_go_miss _ _ _ (by simp ; omega), alf_go_miss _ _ _ (by simp ; omega), alf_go_miss _ _ _ (by simp ; omega), alf_go_hit _ _ _ (by simp ; omega)]
    · intro j hj
      have hjlt : j < 6 := ageBracketContains_lt a j hj
      interval_cases j <;> simp [ageBracketContains, AGE_BRACKETS] at hj <;> omega

/-- C8: every age from 0 through 18 resolves to exactly one age bracket (the
brackets partition the range), and ages outside that range fail with the
out-of-range error. -/
theorem claim_C8 :
    (∀ a : Int, 0 ≤ a → a ≤ 18 →
      ∃ i b, AGE_BRACKETS[i]? = some b ∧ Guideline2021.age_label_for a = .ok b.2.2 ∧
        ageBracketContains a i ∧ ∀ j, ageBracketContains a j → j = i) ∧
    (∀ a : Int, (a < 0 ∨ 18 < a) → Guideline2021.age_label_for a = .error .outOfRange) := by
  refine ⟨age_spec, ?_⟩
  intro a h
  simp only [Guideline2021.age_label_for, AGE_BRACKETS]
  rw [alf_go_miss _ _ _ (by simp ; omega), alf_go_miss _ _ _ (by simp ; omega),
    alf_go_miss _ _ _ (by simp ; omega), alf_go_miss _ _ _ (by simp ; omega),
    alf_go_miss _ _ _ (by simp ; omega), alf_go_miss _ _ _ (by simp ; omega)]
  rfl

/-- Witness for C8: age 7 resolves uniquely; age -3 is rejected. -/
theorem claim_C8_witness :
    (∃ i b, AGE_BRACKETS[i]? = some b ∧ Guideline2021.age_label_for 7 = .ok b.2.2 ∧
      ageBracketContains 7 i ∧ ∀ j, ageBracketContains 7 j → j = i) ∧
    Guideline2021.age_label_for (-3) = .error .outOfRange :=
  ⟨claim_C8.1 7 (by norm_num) (by norm_num), claim_C8.2 (-3) (Or.inl (by norm_num))⟩


/-- Table lookup succeeds, with a full 11-entry row, for every age bracket. -/
lemma table_row_of_age_bracket (i : Nat) (b : Int × Int × String)
    (hgb : AGE_BRACKETS[i]? = some b) :
    ∃ row, TABLE_2021.lookup b.2.2 = some row ∧ row.length = 11 := by
  have hlt : i < 6 := by
    by_contra hc
    push_neg at hc
    rw [List.getElem?_eq_none (by simpa [AGE_BRACKETS] using hc)] at hgb
    cases hgb
  interval_cases i <;> simp [AGE_BRACKETS] at hgb <;> subst hgb <;> exact ⟨_, rfl, rfl⟩

/-- Lookup `Guideline2021.cell` succeeds for every supported age and non-negative
combined income. -/
lemma cell_ok (age combined : Int) (h0 : 0 ≤ age) (h18 : age ≤ 18)
    (hc : 0 ≤ combined) : ∃ cc, Guideline2021.cell age combined = .ok cc := by
  obtain ⟨i, b, hgb, hlab, -, -⟩ := age_spec age h0 h18
  obtain ⟨idx, hfb, hbmem, -⟩ :=
    findBracket_spec (Int.fdiv combined 10000) (Int.fdiv_nonneg hc (by norm_num))
  have hidx : Guideline2021.income_bracket_index combined = .ok idx := by
    simp [Guideline2021.income_bracket_index, hfb]
  have hlt : idx < 11 := bracketContains_lt _ _ hbmem
  obtain ⟨row, hlookup, hlen⟩ := table_row_of_age_bracket i b hgb
  obtain ⟨e, he⟩ : ∃ e, row[idx]? = some e := by
    rw [List.getElem?_eq_getElem (by omega)]
    exact ⟨_, rfl⟩
  obtain ⟨bb, hbb⟩ : ∃ bb, INCOME_BRACKETS_MW[idx]? = some bb := by
    rw [List.getElem?_eq_getElem (by simp [INCOME_BRACKETS_MW] ; omega)]
    exact ⟨_, rfl⟩
  simp [Guideline2021.cell, hlab, hidx, hlookup, he, hbb]

/-- The per-child resolution loop succeeds when every age is supported and the
combined income is non-negative. -/
lemma resolveCells_ok (combined : Int) (hc : 0 ≤ combined) :
    ∀ children : List Child, (∀ ch ∈ children, 0 ≤ ch.age ∧ ch.age ≤ 18) →
      ∃ cells, resolveCells combined children = .ok cells := by
  intro children
  induction children with
  | nil => exact fun _ => ⟨[], rfl⟩
  | cons ch rest ih =>
    intro h
    obtain ⟨cc, hcc⟩ :=
      cell_ok ch.age combined (h ch (by simp)).1 (h ch (by simp)).2 hc
    obtain ⟨cs, hcs⟩ := ih fun c hmem => h c (by simp [hmem])
    exact ⟨cc :: cs, by simp [resolveCells, hcc, hcs]⟩

/-- The adjustment fold succeeds when every adjustment kind is recognized. -/
lemma applyAdjustments_ok :
    ∀ l : List Adjustment, (∀ a ∈ l, recognizedAdj a) →
      ∀ t : ℚ, ∃ p, applyAdjustments t l = .ok p := by
  intro l
  induction l with
  | nil => exact fun _ t => ⟨(t, []), rfl⟩
  | cons a rest ih =>
    intro h t
    have hrest : ∀ x ∈ rest, recognizedAdj x := fun x hx => h x (by simp [hx])
    rcases h a (by simp) with h1 | h2 | h3
    · by_cases hpc : a.is_percent
      · obtain ⟨p, hp⟩ := ih hrest (t * (1 + a.value))
        simp [applyAdjustments, h1, hpc, hp]
      · obtain ⟨p, hp⟩ := ih hrest (t * a.value)
        simp [applyAdjustments, h1, hpc, hp]
    · obtain ⟨p, hp⟩ := ih hrest (t + a.value)
      simp [applyAdjustments, h2, hp]
    · obtain ⟨p, hp⟩ := ih hrest (t - a.value)
      simp [applyAdjustments, h3, hp]

/-- The adjustment fold raises the invalid-adjustment error whenever the list
holds an unrecognized kind, whatever the running total. -/
lemma applyAdjustments_err :
    ∀ l : List Adjustment, (∃ a ∈ l, ¬recognizedAdj a) →
      ∀ t : ℚ, applyAdjustments t l = .error .invalidAdjustment := by
  intro l
  induction l with
  | nil => rintro ⟨a, ha, -⟩ ; simp at ha
  | cons a rest ih =>
    rintro ⟨x, hx, hxr⟩ t
    rcases List.mem_cons.mp hx with rfl | hmem
    · rw [recognizedAdj] at hxr
      push_neg at hxr
      simp [applyAdjustments, hxr.1, hxr.2.1, hxr.2.2]
    · have hrec := ih ⟨x, hmem, hxr⟩
      by_cases h1 : a.type = "multiplier"
      · simp [applyAdjustments, h1, hrec]
      · by_cases h2 : a.type = "add"
        · simp [applyAdjustments, h1, h2, hrec]
        · by_cases h3 : a.type = "subtract"
          · simp [applyAdjustments, h1, h2, h3, hrec]
          · simp [applyAdjustments, h1, h2, h3]

/-- Shape of every successful result: a single exact clamped total `q ≥ 0`
underlies both the reported rounded total and the payment; the multiplier is
the child-count multiplier; zero combined income forces a zero share. -/
lemma calculate_ok_spec (inputs : CalculationInputs) (r : CalculationBreakdown)
    (h : calculate_child_support inputs = .ok r) :
    ∃ q : ℚ, 0 ≤ q ∧
      r.adjusted_total_krw = _safe_int q ∧
      r.non_custodial_payment_krw = _safe_int (q * r.non_custodial_share) ∧
      r.child_count_multiplier = childCountMultiplier inputs.children.length ∧
      (r.combined_income_krw = 0 → r.non_custodial_share = 0) := by
  simp only [calculate_child_support] at h
  split at h
  · cases h
  · split at h
    · cases h
    · split at h
      · cases h
      · split at h
        · cases h
        · split at h
          · cases h
          · cases h
            refine ⟨_, le_max_left 0 _, rfl, rfl, rfl, ?_⟩
            intro h0
            simp only [CalculationBreakdown.combined_income_krw] at h0
            simp [h0]

lemma scenarioA_eval : calculate_child_support scenarioA = .ok resultA := by
  have hc : resolveCells 5000000 [⟨8⟩] = .ok [cellA] := rfl
  have hdiv : Int.fdiv 5000000 10000 = 500 := rfl
  have hs1 : _safe_int (1375980 : ℚ) = 1375980 := by apply safe_int_eq_of <;> norm_num
  have hs2 : _safe_int (825588 : ℚ) = 825588 := by apply safe_int_eq_of <;> norm_num
  simp only [calculate_child_support, scenarioA, resultA, cellA, imputeIncome,
    childCountMultiplier, CHILD_COUNT_MULTIPLIER_1, applyAdjustments, Option.getD]
  norm_num [hc, Guideline2021.income_bracket_index, findBracket, bracketHit,
    INCOME_BRACKETS_MW, hdiv, hs1, hs2, cellA]

/-- C1: the request with custodial income 2,000,000, non-custodial income
3,000,000 and one child of age 8 succeeds with combined income 5,000,000,
bracket (500, 599) at index 4, age label "6~8세", standard total 1,292,000,
multiplier 1.065, share 0.6, and payment round-half-up(1,292,000 × 1.065 ×
0.6) = 825,588. -/
theorem claim_C1 :
    calculate_child_support scenarioA = .ok
      { combined_income_krw := 5000000
        combined_income_mw := 500
        income_bracket_index := 4
        standard_children_cells :=
          [⟨"6~8세", (500, some 599), 1292000, 1217000, some 1385000⟩]
        standard_total_krw := 1292000
        child_count_multiplier := 1.065
        adjusted_total_krw := 1375980
        non_custodial_share := 0.6
        non_custodial_payment_krw := 825588
        applied_adjustments := [] } ∧
    INCOME_BRACKETS_MW[4]? = some (500, some 599) ∧
    _safe_int ((1292000 : ℚ) * 1.065 * 0.6) = 825588 := by
  refine ⟨scenarioA_eval, rfl, ?_⟩
  apply safe_int_eq_of <;> norm_num

lemma scenarioSub_eval : calculate_child_support scenarioSub = .ok resultSub := by
  have hc : resolveCells 5000000 [⟨8⟩] = .ok [cellA] := rfl
  have hdiv : Int.fdiv 5000000 10000 = 500 := rfl
  have hmax : max (0 : ℚ) (-98624019) = 0 := max_eq_left (by norm_num)
  have hs0 : _safe_int (0 : ℚ) = 0 := by apply safe_int_eq_of <;> norm_num
  simp only [calculate_child_support, scenarioSub, resultSub, cellA, imputeIncome,
    childCountMultiplier, CHILD_COUNT_MULTIPLIER_1, applyAdjustments, Option.getD]
  norm_num [hc, Guideline2021.income_bracket_index, findBracket, bracketHit,
    INCOME_BRACKETS_MW, hdiv, hmax, hs0, cellA]
  simp [hmax, hs0]

lemma scenarioHalf_eval : calculate_child_support scenarioHalf = .ok resultHalf := by
  have hc : resolveCells 5000000 [⟨8⟩] = .ok [cellA] := rfl
  have hdiv : Int.fdiv 5000000 10000 = 500 := rfl
  have hmax : max (0 : ℚ) (2751961/2) = 2751961/2 := max_eq_right (by norm_num)
  have hs1 : _safe_int (2751961/2 : ℚ) = 1375981 := by apply safe_int_eq_of <;> norm_num
  have hs2 : _safe_int ((2751961/2 : ℚ) * (3/5)) = 825588 := by
    apply safe_int_eq_of <;> norm_num
  simp only [calculate_child_support, scenarioHalf, resultHalf, cellA, imputeIncome,
    childCountMultiplier, CHILD_COUNT_MULTIPLIER_1, applyAdjustments, Option.getD]
  norm_num [hc, Guideline2021.income_bracket_index, findBracket, bracketHit,
    INCOME_BRACKETS_MW, hdiv, hmax, hs1, hs2, cellA]
  simp [hmax, hs1, hs2]

/-- C3: an unrecognized adjustment kind makes `calculate_child_support` fail
with the invalid-adjustment error and produce no result, while a list of only
recognized kinds never raises that error from the fold. -/
theorem claim_C3 :
    (∀ (t : ℚ) (l : List Adjustment), (∀ a ∈ l, recognizedAdj a) →
      ∃ p, applyAdjustments t l = .ok p) ∧
    (∀ inputs : CalculationInputs, inputs.children ≠ [] →
      (∀ ch ∈ inputs.children, 0 ≤ ch.age ∧ ch.age ≤ 18) →
      0 ≤ imputeIncome inputs.custodial_parent_income_krw
            inputs.custodial_imputed_income_krw →
      0 ≤ imputeIncome inputs.non_custodial_parent_income_krw
            inputs.non_custodial_imputed_income_krw →
      (∃ a ∈ inputs.adjustments.getD [], ¬recognizedAdj a) →
      calculate_child_support inputs = .error .invalidAdjustment) := by
  refine ⟨fun t l h => applyAdjustments_ok l h t, ?_⟩
  intro inputs hch hag hcu hnc hbad
  obtain ⟨idx, hfb, -, -⟩ :=
    findBracket_spec
      (Int.fdiv (imputeIncome inputs.custodial_parent_income_krw
          inputs.custodial_imputed_income_krw +
        imputeIncome inputs.non_custodial_parent_income_krw
          inputs.non_custodial_imputed_income_krw) 10000)
      (Int.fdiv_nonneg (by omega) (by norm_num))
  have hidx : Guideline2021.income_bracket_index
      (imputeIncome inputs.custodial_parent_income_krw
          inputs.custodial_imputed_income_krw +
        imputeIncome inputs.non_custodial_parent_income_krw
          inputs.non_custodial_imputed_income_krw) = .ok idx := by
    simp [Guideline2021.income_bracket_index, hfb]
  obtain ⟨cells, hcells⟩ := resolveCells_ok
    (imputeIncome inputs.custodial_parent_income_krw
        inputs.custodial_imputed_income_krw +
      imputeIncome inputs.non_custodial_parent_income_krw
        inputs.non_custodial_imputed_income_krw) (by omega) inputs.children hag
  have herr := applyAdjustments_err (inputs.adjustments.getD []) hbad
  simp only [calculate_child_support]
  rw [if_neg hch, if_neg (by omega)]
  simp only [hidx, hcells, herr]

/-- Witness for C3 at a concrete request with kind "divide". -/
theorem claim_C3_witness :
    calculate_child_support badAdjInputs = .error .invalidAdjustment :=
  claim_C3.2 badAdjInputs (by decide) (by decide) (by decide) (by decide) (by decide)

/-- C4: the adjustment fold is left-to-right with additive kinds adding,
subtractive kinds subtracting, factor kinds multiplying by the value and
percentage kinds multiplying by one plus the value; the two orderings of
[+10000, ×1.1] on 100,000 give 121,000 and 120,000. -/
theorem claim_C4 :
    (∀ (t : ℚ) (a : Adjustment) (l : List Adjustment),
      (a.type = "add" →
        (applyAdjustments t (a :: l)).map Prod.fst =
          (applyAdjustments (t + a.value) l).map Prod.fst) ∧
      (a.type = "subtract" →
        (applyAdjustments t (a :: l)).map Prod.fst =
          (applyAdjustments (t - a.value) l).map Prod.fst) ∧
      (a.type = "multiplier" → a.is_percent = false →
        (applyAdjustments t (a :: l)).map Prod.fst =
          (applyAdjustments (t * a.value) l).map Prod.fst) ∧
      (a.type = "multiplier" → a.is_percent = true →
        (applyAdjustments t (a :: l)).map Prod.fst =
          (applyAdjustments (t * (1 + a.value)) l).map Prod.fst)) ∧
    (applyAdjustments 100000
      [⟨"fix", "add", 10000, false⟩, ⟨"pct", "multiplier", 0.1, true⟩]).map Prod.fst =
      .ok 121000 ∧
    (applyAdjustments 100000
      [⟨"pct", "multiplier", 0.1, true⟩, ⟨"fix", "add", 10000, false⟩]).map Prod.fst =
      .ok 120000 := by
  refine ⟨?_, ?_, ?_⟩
  · intro t a l
    refine ⟨?_, ?_, ?_, ?_⟩
    · intro h
      simp only [applyAdjustments, h]
      norm_num
      cases applyAdjustments (t + a.value) l <;> simp [Except.map]
    · intro h
      simp only [applyAdjustments, h]
      norm_num
      cases applyAdjustments (t - a.value) l <;> simp [Except.map]
    · intro h hp
      simp only [applyAdjustments, h, hp]
      norm_num
      cases applyAdjustments (t * a.value) l <;> simp [Except.map]
    · intro h hp
      simp only [applyAdjustments, h, hp]
      norm_num
      cases applyAdjustments (t * (1 + a.value)) l <;> simp [Except.map]
  · simp [applyAdjustments, Except.map]
    norm_num
  · simp [applyAdjustments, Except.map]
    norm_num

/-- Witness for C4: one additive step unfolds to the fold on the updated
total. -/
theorem claim_C4_witness :
    (applyAdjustments 5 [⟨"fix", "add", 10000, false⟩]).map Prod.fst =
      (applyAdjustments (5 + 10000) []).map Prod.fst :=
  (claim_C4.1 5 ⟨"fix", "add", 10000, false⟩ []).1 rfl

/-- C5: whatever adjustments are supplied, the adjusted total reported by a
successful calculation is never negative (the fold result is clamped at 0). -/
theorem claim_C5 (inputs : CalculationInputs) (r : CalculationBreakdown)
    (h : calculate_child_support inputs = .ok r) : 0 ≤ r.adjusted_total_krw := by
  obtain ⟨q, hq0, hadj, -, -, -⟩ := calculate_ok_spec inputs r h
  rw [hadj]
  unfold _safe_int
  exact Int.le_floor.mpr (by push_cast ; linarith)

/-- Witness for C5 at a request whose subtractive adjustment exceeds the
running total. -/
theorem claim_C5_witness : 0 ≤ resultSub.adjusted_total_krw :=
  claim_C5 scenarioSub resultSub scenarioSub_eval

/-- C6: when the combined income after imputation is zero (and the request is
otherwise valid), the calculation succeeds with share 0 and payment 0,
whatever the children and adjustments. -/
theorem claim_C6 (inputs : CalculationInputs)
    (hch : inputs.children ≠ [])
    (hag : ∀ ch ∈ inputs.children, 0 ≤ ch.age ∧ ch.age ≤ 18)
    (hadj : ∀ a ∈ inputs.adjustments.getD [], recognizedAdj a)
    (hcu : 0 ≤ imputeIncome inputs.custodial_parent_income_krw
      inputs.custodial_imputed_income_krw)
    (hnc : 0 ≤ imputeIncome inputs.non_custodial_parent_income_krw
      inputs.non_custodial_imputed_income_krw)
    (hzero : imputeIncome inputs.custodial_parent_income_krw
        inputs.custodial_imputed_income_krw +
      imputeIncome inputs.non_custodial_parent_income_krw
        inputs.non_custodial_imputed_income_krw = 0) :
    ∃ r, calculate_child_support inputs = .ok r ∧
      r.non_custodial_share = 0 ∧ r.non_custodial_payment_krw = 0 := by
  obtain ⟨cells, hcells⟩ := resolveCells_ok
    (imputeIncome inputs.custodial_parent_income_krw
        inputs.custodial_imputed_income_krw +
      imputeIncome inputs.non_custodial_parent_income_krw
        inputs.non_custodial_imputed_income_krw) (by omega) inputs.children hag
  obtain ⟨⟨pt, pl⟩, hp⟩ := applyAdjustments_ok (inputs.adjustments.getD []) hadj
    ((((cells.map (fun x => x.avg_krw)).sum : ℤ) : ℚ) *
      childCountMultiplier inputs.children.length)
  have hidx : Guideline2021.income_bracket_index
      (imputeIncome inputs.custodial_parent_income_krw
          inputs.custodial_imputed_income_krw +
        imputeIncome inputs.non_custodial_parent_income_krw
          inputs.non_custodial_imputed_income_krw) = .ok 0 := by
    rw [hzero] ; rfl
  have hidx0 : Guideline2021.income_bracket_index 0 = .ok 0 := rfl
  have hs0 : _safe_int (0 : ℚ) = 0 := by apply safe_int_eq_of <;> norm_num
  rw [hzero] at hcells
  simp only [calculate_child_support]
  rw [if_neg hch, if_neg (by omega)]
  simp only [hzero, hidx0, hcells, hp]
  simp [hs0]

/-- Witness for C6 at a zero-income request with a positive adjustment. -/
theorem claim_C6_witness :
    ∃ r, calculate_child_support zeroIncomeInputs = .ok r ∧
      r.non_custodial_share = 0 ∧ r.non_custodial_payment_krw = 0 :=
  claim_C6 zeroIncomeInputs (by decide) (by decide) (by decide) (by decide)
    (by decide) (by decide)

/-- C7: the payment of every successful calculation is the round-half-up of
the exact clamped total times the share, and round-half-up sends any
non-negative integer plus one half to that integer plus one. -/
theorem claim_C7 :
    (∀ (inputs : CalculationInputs) (r : CalculationBreakdown),
      calculate_child_support inputs = .ok r →
      ∃ q : ℚ, 0 ≤ q ∧ r.adjusted_total_krw = _safe_int q ∧
        r.non_custodial_payment_krw = _safe_int (q * r.non_custodial_share)) ∧
    (∀ n : ℤ, 0 ≤ n → _safe_int ((n : ℚ) + 1/2) = n + 1) := by
  constructor
  · intro inputs r h
    obtain ⟨q, h0, h1, h2, -, -⟩ := calculate_ok_spec inputs r h
    exact ⟨q, h0, h1, h2⟩
  · intro n hn
    apply safe_int_eq_of <;> push_cast <;> linarith

/-- Witness for C7: scenario A, and the tie 7.5 rounding to 8. -/
theorem claim_C7_witness :
    (∃ q : ℚ, 0 ≤ q ∧ resultA.adjusted_total_krw = _safe_int q ∧
      resultA.non_custodial_payment_krw = _safe_int (q * resultA.non_custodial_share)) ∧
    _safe_int (((7 : ℤ) : ℚ) + 1/2) = 7 + 1 :=
  ⟨claim_C7.1 scenarioA resultA scenarioA_eval, claim_C7.2 7 (by norm_num)⟩

/-- C9: the child-count multiplier is 1.065 for one child, 1.0 for two, and
0.783 uniformly for three or more, and every successful calculation applies
the multiplier of its child count. -/
theorem claim_C9 :
    childCountMultiplier 1 = 1.065 ∧ childCountMultiplier 2 = 1.0 ∧
    (∀ n : Nat, 3 ≤ n → childCountMultiplier n = 0.783) ∧
    (∀ (inputs : CalculationInputs) (r : CalculationBreakdown),
      calculate_child_support inputs = .ok r →
      r.child_count_multiplier = childCountMultiplier inputs.children.length) := by
  refine ⟨rfl, rfl, ?_, ?_⟩
  · intro n hn
    have h1 : n ≠ 1 := by omega
    have h2 : n ≠ 2 := by omega
    simp [childCountMultiplier, h1, h2]
    rfl
  · intro inputs r h
    obtain ⟨q, -, -, -, hm, -⟩ := calculate_ok_spec inputs r h
    exact hm

/-- Witness for C9: ten children get the three-plus multiplier; scenario A
records its one-child multiplier. -/
theorem claim_C9_witness :
    childCountMultiplier 10 = 0.783 ∧
    resultA.child_count_multiplier = childCountMultiplier scenarioA.children.length :=
  ⟨claim_C9.2.2.1 10 (by norm_num), claim_C9.2.2.2 scenarioA resultA scenarioA_eval⟩

/-- C10: the payment is computed from the exact clamped total (not from the
separately rounded `adjusted_total_krw`), and on `scenarioHalf` the payment
differs from round-half-up(`adjusted_total_krw` × share). -/
theorem claim_C10 :
    (∀ (inputs : CalculationInputs) (r : CalculationBreakdown),
      calculate_child_support inputs = .ok r →
      ∃ q : ℚ, 0 ≤ q ∧
        r.non_custodial_payment_krw = _safe_int (q * r.non_custodial_share) ∧
        r.adjusted_total_krw = _safe_int q) ∧
    (∃ r, calculate_child_support scenarioHalf = .ok r ∧
      r.non_custodial_payment_krw ≠
        _safe_int ((r.adjusted_total_krw : ℚ) * r.non_custodial_share)) := by
  constructor
  · intro inputs r h
    obtain ⟨q, h0, h1, h2, -, -⟩ := calculate_ok_spec inputs r h
    exact ⟨q, h0, h2, h1⟩
  · refine ⟨resultHalf, scenarioHalf_eval, ?_⟩
    have h1 : _safe_int (((1375981 : ℤ) : ℚ) * 0.6) = 825589 := by
      apply safe_int_eq_of <;> norm_num
    simp only [resultHalf]
    rw [h1]
    decide

/-- Witness for C10's universal part at the subtract scenario. -/
theorem claim_C10_witness :
    ∃ q : ℚ, 0 ≤ q ∧
      resultSub.non_custodial_payment_krw = _safe_int (q * resultSub.non_custodial_share) ∧
      resultSub.adjusted_total_krw = _safe_int q :=
  claim_C10.1 scenarioSub resultSub scenarioSub_eval
